import Mathlib

/-!
Verification of the tool registry and dispatch core of the Local-Assistant
repository (src/tools).  The Python functions are shallowly embedded as Lean
functions: Python dictionaries become association lists, Python exceptions
become an explicit outcome type, and effects (glob enumeration, the
filesystem, the search backend, process launches) become explicit inputs or
outputs of the embedded functions.  Strings are Lean `String`s (a list of
characters), which matches Python's character-level `len`, slicing and
`split` for the inputs considered here.
-/

namespace LocalAssistant

/-- A Python exception, distinguished the way the dispatcher in
`tool_registry.execute_tool` distinguishes it: `TypeError` versus every
other `Exception`.  The payload is the text `str(e)` of the exception. -/
inductive PyExc where
  | typeError (detail : String)
  | otherError (detail : String)

/-- Outcome of invoking a registered implementation with a keyword-argument
mapping, before the dispatcher's `try` block interprets it: binding the
arguments can fail (Python raises `TypeError` at the call site, before the
body runs), or the body runs and either returns a string or raises. -/
inductive CallOutcome where
  | bindFailure (detail : String)
  | body (result : Except PyExc String)

/-- What the dispatcher's `try` block observes: an argument-binding failure
surfaces as a `TypeError` raised at the call site (`func(**tool_args)`). -/
def CallOutcome.toRaised : CallOutcome → Except PyExc String
  | .bindFailure detail => .error (.typeError detail)
  | .body result => result

/-- A property descriptor inside a schema's `parameters.properties` mapping:
its `"type"` tag, its `"description"`, and an optional `"enum"` list, as
written literally at each `register_tool` call site. -/
structure PropSpec where
  ptype : String
  description : String
  enumVals : Option (List String) := none
  deriving DecidableEq, Repr

/-- The `parameters` object of a tool schema: `{"type": "object",
"properties": ..., "required": ...}` (the constant `"type": "object"` tag is
common to every schema and is left implicit). -/
structure ToolParameters where
  properties : List (String × PropSpec)
  required : List String
  deriving DecidableEq, Repr

/-- One entry of `_TOOL_SCHEMAS`: the `"function"` object built by
`register_tool` (the constant outer `"type": "function"` tag is left
implicit). -/
structure ToolSchema where
  name : String
  description : String
  parameters : ToolParameters
  deriving DecidableEq, Repr

/-- The module-level mutable state of `tool_registry`: the dict
`_TOOL_FUNCTIONS` (an insertion-ordered association list, as Python dicts
are) and the list `_TOOL_SCHEMAS`.  `α` is the type of the raw argument
mapping handed to an implementation. -/
structure RegistryState (α : Type) where
  functions : List (String × (α → CallOutcome))
  schemas : List ToolSchema

/-- The registry before any `register_tool` call has run. -/
def emptyRegistry {α : Type} : RegistryState α := { functions := [], schemas := [] }

/-- Assignment `d[k] = v` on a Python dict rendered as an association list:
an existing key keeps its position and gets the new value, a new key is
appended at the end. -/
def dictInsert {β : Type} (k : String) (v : β) : List (String × β) → List (String × β)
  | [] => [(k, v)]
  | (k0, v0) :: rest => if k0 = k then (k, v) :: rest else (k0, v0) :: dictInsert k v rest

/-- Embedding of `tool_registry.register_tool`: store the implementation
under `name` in `_TOOL_FUNCTIONS` and append the schema record to
`_TOOL_SCHEMAS` (unconditionally, even when `name` was already present). -/
def register_tool {α : Type} (name description : String) (parameters : ToolParameters)
    (func : α → CallOutcome) (st : RegistryState α) : RegistryState α :=
  { functions := dictInsert name func st.functions,
    schemas := st.schemas ++ [{ name := name, description := description, parameters := parameters }] }

/-- Embedding of `tool_registry.execute_tool`: unknown names, argument
binding failures (a `TypeError` at the call site) and internal exceptions
are all converted to descriptive strings; a successful result is returned
unmodified.  The timing/logging side effects are advisory and not
modelled. -/
def execute_tool {α : Type} (st : RegistryState α) (tool_name : String) (tool_args : α) : String :=
  match st.functions.lookup tool_name with
  | none => "Unknown tool: " ++ tool_name
  | some f =>
    match (f tool_args).toRaised with
    | .ok result => result
    | .error (.typeError e) => "Tool '" ++ tool_name ++ "' received invalid arguments: " ++ e
    | .error (.otherError e) => "Tool '" ++ tool_name ++ "' failed: " ++ e

/-- Embedding of `tool_registry.get_all_tools` (the `.copy()` is identity on
an immutable value). -/
def get_all_tools {α : Type} (st : RegistryState α) : List ToolSchema :=
  st.schemas

/-- Embedding of `tool_registry.get_tool_names`. -/
def get_tool_names {α : Type} (st : RegistryState α) : List String :=
  st.functions.map Prod.fst

/-! String helpers modelling the Python string operations the tools use. -/

/-- Python `str.strip()` on a list of characters: drop leading and trailing
whitespace. -/
def stripList (s : List Char) : List Char :=
  ((s.dropWhile Char.isWhitespace).reverse.dropWhile Char.isWhitespace).reverse

/-- Python `str.strip()` (for the ASCII whitespace that occurs here). -/
def pyStrip (s : String) : String :=
  ⟨stripList s.data⟩

/-- Python `str.startswith(pre)`. -/
def py_startswith (s pre : String) : Bool :=
  pre.data.isPrefixOf s.data

/-- Worker for `pyReplace`: left-to-right, non-overlapping replacement of a
nonempty pattern, with explicit fuel so that the recursion is structural
(the fuel is always at least the length of the text, so it never runs
out). -/
def replaceGo (pat rep : List Char) : Nat → List Char → List Char
  | 0, s => s
  | fuel + 1, s =>
    match s with
    | [] => []
    | c :: rest =>
      if pat.isPrefixOf (c :: rest) then
        rep ++ replaceGo pat rep fuel (rest.drop (pat.length - 1))
      else
        c :: replaceGo pat rep fuel rest

/-- Python `s.replace(pat, rep)` for a nonempty `pat`: replace every
non-overlapping occurrence, scanning left to right. -/
def pyReplace (s pat rep : String) : String :=
  ⟨replaceGo pat.data rep.data s.data.length s.data⟩

/-- Python `os.path.expanduser` on POSIX for the forms the assistant meets:
a lone `~` or a `~/`-prefixed path is expanded with the home directory
(the `~otheruser` form is not modelled; it is never produced here). -/
def py_expanduser (home p : String) : String :=
  if p = "~" then home
  else if py_startswith p "~/" then ⟨home.data ++ p.data.drop 1⟩
  else p

/-- Python `os.path.join(a, b)` on POSIX for two components. -/
def py_join (a b : String) : String :=
  if py_startswith b "/" then b
  else if a = "" ∨ a.data.getLast? = some '/' then a ++ b
  else a ++ "/" ++ b

/-- Python `s.split(sep)` for a one-character separator, on a list of
characters. -/
def splitChar (sep : Char) : List Char → List (List Char)
  | [] => [[]]
  | c :: rest =>
    if c = sep then [] :: splitChar sep rest
    else
      match splitChar sep rest with
      | [] => [[c]]
      | h :: t => (c :: h) :: t

/-- Python `os.path.basename` on POSIX: everything after the last slash. -/
def py_basename (p : String) : String :=
  ⟨(p.data.reverse.takeWhile (· ≠ '/')).reverse⟩

/-- Python `os.path.dirname` on POSIX: everything before the last slash,
with trailing slashes stripped unless the head is all slashes. -/
def py_dirname (p : String) : String :=
  match (p.data.reverse.dropWhile (· ≠ '/')).reverse with
  | [] => ""
  | head =>
    if head.all (· = '/') then ⟨head⟩
    else ⟨(head.reverse.dropWhile (· = '/')).reverse⟩

/-! Embedding of `file_tools` path handling. -/

/-- Embedding of `file_tools._expand_path`: an empty path becomes the home
directory; the placeholder home directories a model might hallucinate are
rewritten to `~/`; then `~` is expanded.  Note that a relative path is
returned unchanged (it is not resolved against the home directory). -/
def expand_path (home path : String) : String :=
  if path = "" then home
  else
    py_expanduser home
      (pyReplace (pyReplace (pyReplace path "/home/yourname/" "~/")
        "/home/username/" "~/") "/home/user/" "~/")

/-- The path-normalization part of `app_tools.open_file` (lines 150-165):
strip, rewrite the placeholder home directories, expand `~`, and resolve a
relative path against the home directory. -/
def open_file_target (home path : String) : String :=
  let t := py_expanduser home
    (pyReplace (pyReplace (pyReplace (pyStrip path) "/home/yourname/" "~/")
      "/home/username/" "~/") "/home/user/" "~/")
  if py_startswith t "/" then t else py_join home t

/-! Embedding of the `file_tools` search, listing and reading operations.
The filesystem effects are abstracted into explicit inputs: the stream of
paths a `Path(search_dir).glob(search_pattern)` call yields, in order,
becomes a list of entries, and the `stat` data of a file becomes a record. -/

/-- Safety limit `MAX_FILE_SIZE` of `file_tools` (50KB). -/
def MAX_FILE_SIZE : Nat := 50 * 1024

/-- Result cap `MAX_RESULTS` of `file_tools`. -/
def MAX_RESULTS : Nat := 20

/-- The exclusion set `EXCLUDED_DIRS` of `file_tools`, verbatim. -/
def EXCLUDED_DIRS : List String :=
  [".git", ".venv", "venv", "node_modules", "__pycache__",
   ".cache", ".local/share/Trash", ".npm", ".cargo"]

/-- Embedding of `file_tools._is_excluded_path`: split the path on the OS
separator and test whether any excluded entry equals one of the parts. -/
def is_excluded_path (path : String) : Bool :=
  EXCLUDED_DIRS.any fun excluded => (splitChar '/' path.data).contains excluded.data

/-- One entry of the stream a `Path.glob` call yields: its path and what
`is_file()` / `is_dir()` answer for it. -/
structure FsEntry where
  path : String
  isFile : Bool
  isDir : Bool
  deriving DecidableEq, Repr

/-- The `continue` condition of the `file_type` filter inside `find_files`. -/
def typeSkips (file_type : Option String) (e : FsEntry) : Bool :=
  match file_type with
  | none => false
  | some ft => (ft == "file" && !e.isFile) || (ft == "directory" && !e.isDir)

/-- The result-collection loop of `find_files` (lines 82-96): skip excluded
paths, apply the `file_type` filter, and stop once `MAX_RESULTS` results
are collected. -/
def find_files_collect (file_type : Option String) : List FsEntry → List String → List String
  | [], acc => acc
  | e :: rest, acc =>
    if is_excluded_path e.path then find_files_collect file_type rest acc
    else if typeSkips file_type e then find_files_collect file_type rest acc
    else
      let acc2 := acc ++ [e.path]
      if MAX_RESULTS ≤ acc2.length then acc2 else find_files_collect file_type rest acc2

/-- The result-collection loop of `find_and_open_file` (lines 334-341):
skip excluded paths, keep only files, stop at `MAX_RESULTS`. -/
def find_and_open_collect : List FsEntry → List String → List String
  | [], acc => acc
  | e :: rest, acc =>
    if is_excluded_path e.path then find_and_open_collect rest acc
    else if e.isFile then
      let acc2 := acc ++ [e.path]
      if MAX_RESULTS ≤ acc2.length then acc2 else find_and_open_collect rest acc2
    else find_and_open_collect rest acc

/-- Embedding of `find_files` from the point where the glob stream is known
(`entries`); the directory-existence check and the construction of the glob
pattern from `pattern` happen before this stream exists and are kept outside
the model. -/
def find_files (entries : List FsEntry) (pattern : String) (file_type : Option String) : String :=
  let results := find_files_collect file_type entries []
  if results.isEmpty then "No files found matching '" ++ pattern ++ "'."
  else
    let header := "Found " ++ toString results.length ++ " files:\n"
    let lines := results.enum.map fun ip =>
      let filename := py_basename ip.2
      let parent_dir := py_dirname ip.2
      let folder := if parent_dir = "" then "" else py_basename parent_dir
      toString (ip.1 + 1) ++ ". " ++ filename ++ " in " ++ folder ++ "\n"
    let trunc :=
      if MAX_RESULTS ≤ results.length then
        "Showing first " ++ toString MAX_RESULTS ++ " results.\n"
      else ""
    pyStrip (header ++ String.join lines ++ trunc ++
      "Say 'open the first one' or use find_and_open_file tool.")

/-- Embedding of `find_and_open_file` from the point where the glob stream
is known.  The second component records the path handed to `xdg-open`
(`none` means no open action was performed); `xdg` says whether the
`xdg-open` binary exists (its absence raises `FileNotFoundError` at
`Popen`). -/
def find_and_open_file (xdg : Bool) (entries : List FsEntry) (pattern : String)
    (which : Int) : String × Option String :=
  let results := find_and_open_collect entries []
  if results.isEmpty then ("No files found matching '" ++ pattern ++ "'.", none)
  else
    let w : Int := if which = 0 then 1 else which
    if w < 1 ∨ (results.length : Int) < w then
      ("Found " ++ toString results.length ++ " files, but you asked for #" ++ toString w ++
        ". Please choose 1 to " ++ toString results.length ++ ".", none)
    else
      let target_file := results.getD (w - 1).toNat ""
      let filename := py_basename target_file
      let folder := py_basename (py_dirname target_file)
      if xdg then ("Opened " ++ filename ++ " from " ++ folder ++ " folder.", some target_file)
      else ("Could not open file: xdg-open not found. Are you on Linux?", none)

/-- The `stat`/read data of the file a `read_file` path resolves to:
whether it exists, whether it is a directory, its size in bytes, and its
decoded lines (each line keeps its trailing newline, as `readlines`
returns them). -/
structure FileState where
  pathExists : Bool
  isDir : Bool
  size : Nat
  lines : List String
  deriving Repr

/-- The `max_lines` validation of `read_file` (line 197):
`max(1, min(max_lines or 50, 200))`, with Python's `or` treating `0` as
falsy (the signature default is 50). -/
def effMaxLines (max_lines : Int) : Int :=
  max 1 (min (if max_lines = 0 then 50 else max_lines) 200)

/-- One-decimal rendering of `num / den`, rounding to nearest with ties to
even, as Python's float formatting `f"{x:.1f}"` does (up to the error of
binary floats, which none of the sizes used here exhibits). -/
def fmt1 (num den : Nat) : String :=
  let t := num * 10
  let q := t / den
  let r := t % den
  let q2 := if den < 2 * r ∨ (2 * r = den ∧ q % 2 = 1) then q + 1 else q
  toString (q2 / 10) ++ "." ++ toString (q2 % 10)

/-- Embedding of `file_tools._format_size` for nonnegative sizes. -/
def format_size (size_bytes : Nat) : String :=
  if size_bytes < 1024 then fmt1 size_bytes 1 ++ "B"
  else if size_bytes < 1024 ^ 2 then fmt1 size_bytes 1024 ++ "KB"
  else if size_bytes < 1024 ^ 3 then fmt1 size_bytes (1024 ^ 2) ++ "MB"
  else if size_bytes < 1024 ^ 4 then fmt1 size_bytes (1024 ^ 3) ++ "GB"
  else fmt1 size_bytes (1024 ^ 4) ++ "TB"

/-- The `path.replace(HOME_DIR, "~") if path.startswith(HOME_DIR) else path`
idiom used for display paths. -/
def displayPath (home path : String) : String :=
  if py_startswith path home then pyReplace path home "~" else path

/-- Embedding of `read_file`: `path` is the argument as given (used in the
display), `fs` describes the file found at `_expand_path(path)`.  The
permission-denied and OS-error branches are not modelled (the claim
concerns the pure size/line-count logic). -/
def read_file (home path : String) (fs : FileState) (max_lines : Int) : String :=
  if fs.pathExists = false then "File not found: " ++ path
  else if fs.isDir = true then
    "Path is a directory, not a file: " ++ path ++ ". Use list_directory instead."
  else if MAX_FILE_SIZE < fs.size then
    "File too large (" ++ format_size fs.size ++ "). Max allowed: " ++ format_size MAX_FILE_SIZE
  else
    let ml := effMaxLines max_lines
    let dp := displayPath home path
    if ml.toNat < fs.lines.length then
      "File: " ++ dp ++ " (showing first " ++ toString ml ++ " of " ++
        toString fs.lines.length ++ " lines)\n\n" ++ String.join (fs.lines.take ml.toNat)
    else
      "File: " ++ dp ++ "\n\n" ++ String.join fs.lines

/-! Embedding of `web_tools`. -/

/-- One DuckDuckGo result dictionary, with the fields the formatter reads. -/
structure SearchResult where
  title : String
  body : String
  href : String
  deriving DecidableEq, Repr

/-- The external search backend: `available` models whether the `ddgs`
package imported, `text q n tl region` models `DDGS().text(q,
max_results=n, timelimit=tl, region=region)` (a `timelimit` of `none`
models Python `None` and an omitted keyword alike). -/
structure SearchBackend where
  available : Bool
  text : String → Nat → Option String → String → List SearchResult

/-- Python truthiness of the `timelimit` value (`None` and `""` are falsy). -/
def tlTruthy : Option String → Bool
  | none => false
  | some t => t ≠ ""

/-- The result formatter inside `perform_search` (lines 74-91): skip
results with a blank title or body, truncate bodies over 200 characters to
197 plus an ellipsis, number by the position in the raw result list, and
join with newlines. -/
def formatSearchResults (query : String) (results : List SearchResult) : String :=
  let header := "Search results for: " ++ query ++ "\n"
  let items := results.enum.filterMap fun ir =>
    let title := pyStrip ir.2.title
    let body := pyStrip ir.2.body
    if title = "" ∨ body = "" then none
    else
      let body2 := if 200 < body.length then ⟨body.data.take 197⟩ ++ "..." else body
      some (toString (ir.1 + 1) ++ ". " ++ title ++ "\n   " ++ body2 ++ "\n")
  String.intercalate "\n" (header :: items)

/-- Embedding of `web_tools.perform_search`.  The second component counts
how many calls reached the network backend, so "without contacting the
backend" is expressible. -/
def perform_search (be : SearchBackend) (query : String) (max_results : Nat)
    (timelimit : Option String) (region : String) : String × Nat :=
  if be.available = false then
    ("Search unavailable: duckduckgo-search package not installed.", 0)
  else if query = "" ∨ pyStrip query = "" then ("No search query provided.", 0)
  else
    let q := pyStrip query
    let r1 := be.text q max_results timelimit region
    let r2 := if r1.isEmpty ∧ tlTruthy timelimit then be.text q max_results none region else r1
    let r3 := if r2.isEmpty ∧ region ≠ "us-en" then be.text q max_results none "us-en" else r2
    let calls := 1 + (if r1.isEmpty ∧ tlTruthy timelimit then 1 else 0) +
      (if r2.isEmpty ∧ region ≠ "us-en" then 1 else 0)
    if r3.isEmpty then ("No search results found for: " ++ q, calls)
    else (formatSearchResults q r3, calls)

/-- Embedding of `web_tools.web_search`: an empty or whitespace-only query
is rejected before `perform_search` runs; an invalid truthy `timelimit` is
dropped; then `perform_search` runs with its default `max_results=5` and
`region="wt-wt"`. -/
def web_search (be : SearchBackend) (query : String) (timelimit : Option String) : String × Nat :=
  if query = "" ∨ pyStrip query = "" then ("Please provide a search query.", 0)
  else
    let tl := match timelimit with
      | none => none
      | some t =>
        if t ≠ "" ∧ t ≠ "d" ∧ t ≠ "w" ∧ t ≠ "m" ∧ t ≠ "y" then none else some t
    perform_search be query 5 tl "wt-wt"

/-! The startup registration pass.  `tool_registry._load_all_tools` imports
`system_tools`, `file_tools`, `network_tools`, `app_tools` and `web_tools`
in that order; importing a module runs its `register_tool` calls in file
order.  The schemas below are transcribed verbatim from those call sites;
the implementations are abstracted as `impl name` since the registry-level
claims do not depend on their behaviour. -/

/-- Schema shorthand: a `{"type": t, "description": d}` property. -/
def prop (t d : String) : PropSpec := { ptype := t, description := d }

/-- Schema shorthand: a property with an `"enum"` constraint. -/
def propEnum (t : String) (vals : List String) (d : String) : PropSpec :=
  { ptype := t, description := d, enumVals := some vals }

/-- The registry state after `_load_all_tools` has run, starting from the
empty module state. -/
def startupRegistry {α : Type} (impl : String → α → CallOutcome) : RegistryState α :=
  emptyRegistry
  |> register_tool "get_system_stats"
      "Get overall system status including CPU, RAM, disk, and GPU usage. Good for 'how is my system doing' type questions."
      { properties := [], required := [] } (impl "get_system_stats")
  |> register_tool "get_cpu_info"
      "Get CPU information including cores, frequency, and per-core usage."
      { properties := [], required := [] } (impl "get_cpu_info")
  |> register_tool "get_memory_info"
      "Get RAM and swap memory usage details."
      { properties := [], required := [] } (impl "get_memory_info")
  |> register_tool "get_disk_usage"
      "Get disk space usage for a given path. Defaults to root partition."
      { properties := [("path", prop "string" "Path to check disk usage for (default: /)")],
        required := [] } (impl "get_disk_usage")
  |> register_tool "get_gpu_info"
      "Get GPU information including VRAM usage, load, and temperature. Supports both NVIDIA and AMD GPUs."
      { properties := [], required := [] } (impl "get_gpu_info")
  |> register_tool "get_battery_status"
      "Get battery level and charging status. Works on laptops only."
      { properties := [], required := [] } (impl "get_battery_status")
  |> register_tool "list_processes"
      "List top processes by CPU or memory usage."
      { properties :=
          [("sort_by", propEnum "string" ["cpu", "memory"] "Sort by 'cpu' or 'memory' (default: cpu)"),
           ("limit", prop "integer" "Number of processes to show (default: 5, max: 20)")],
        required := [] } (impl "list_processes")
  |> register_tool "find_and_open_file"
      "Find files matching a pattern and open the Nth one. Use this when user says 'find and open' or 'open a PDF'. Example: find PDFs and open the 4th one."
      { properties :=
          [("pattern", prop "string" "File pattern (e.g., '*.pdf', 'report', '*.txt')"),
           ("which", prop "integer" "Which file to open (1=first, 2=second, etc). Default: 1"),
           ("directory", prop "string" "Directory to search (default: home)")],
        required := ["pattern"] } (impl "find_and_open_file")
  |> register_tool "find_files"
      "Search for files by name pattern. Use this to LIST files without opening. For finding AND opening, use find_and_open_file instead."
      { properties :=
          [("pattern", prop "string" "File name pattern to search for (e.g., '*.pdf', 'report', 'notes.txt')"),
           ("directory", prop "string" "Directory to search in (default: home directory)"),
           ("file_type", propEnum "string" ["file", "directory"] "Filter by type: 'file' or 'directory'")],
        required := ["pattern"] } (impl "find_files")
  |> register_tool "list_directory"
      "List contents of a directory. Shows files and folders with sizes."
      { properties :=
          [("path", prop "string" "Directory path to list (default: home directory)"),
           ("show_hidden", prop "boolean" "Include hidden files (default: false)")],
        required := [] } (impl "list_directory")
  |> register_tool "read_file"
      "Read the contents of a text file. Limited to small files for safety."
      { properties :=
          [("path", prop "string" "Path to the file to read"),
           ("max_lines", prop "integer" "Maximum lines to read (default: 50, max: 200)")],
        required := ["path"] } (impl "read_file")
  |> register_tool "get_file_info"
      "Get detailed information about a file including size, dates, and permissions."
      { properties := [("path", prop "string" "Path to the file or directory")],
        required := ["path"] } (impl "get_file_info")
  |> register_tool "get_recent_files"
      "Find recently modified files. Good for 'what did I work on today' type questions."
      { properties :=
          [("directory", prop "string" "Directory to search (default: home)"),
           ("hours", prop "integer" "Look back this many hours (default: 24, max: 168)"),
           ("limit", prop "integer" "Max files to return (default: 10, max: 50)")],
        required := [] } (impl "get_recent_files")
  |> register_tool "get_network_info"
      "Get network interfaces and IP addresses."
      { properties := [], required := [] } (impl "get_network_info")
  |> register_tool "check_internet"
      "Check if internet connection is working."
      { properties := [], required := [] } (impl "check_internet")
  |> register_tool "get_wifi_info"
      "Get WiFi network name, signal strength, and security type."
      { properties := [], required := [] } (impl "get_wifi_info")
  |> register_tool "open_application"
      "Open an application by name. Examples: Firefox, VS Code, Terminal, Calculator, File Manager."
      { properties := [("app_name", prop "string" "Name of the application to open")],
        required := ["app_name"] } (impl "open_application")
  |> register_tool "open_file"
      "Open a file with its default application."
      { properties := [("path", prop "string" "Path to the file to open")],
        required := ["path"] } (impl "open_file")
  |> register_tool "open_url"
      "Open a URL in the default web browser."
      { properties := [("url", prop "string" "URL to open (e.g., github.com, google.com)")],
        required := ["url"] } (impl "open_url")
  |> register_tool "web_search"
      "Search the internet for current information like weather, news, sports scores, or stocks."
      { properties :=
          [("query", prop "string" "Search query"),
           ("timelimit", propEnum "string" ["d", "w", "m", "y"]
             "Time limit: 'd' (day), 'w' (week), 'm' (month), 'y' (year). Use 'd' or 'w' for recent news.")],
        required := ["query"] } (impl "web_search")

/-- Checker for the schema invariant of the spec: every name in `required`
is a key of `properties`. -/
def requiredOk (p : ToolParameters) : Bool :=
  p.required.all fun r => (p.properties.map Prod.fst).contains r

/-- Checker for the schema invariant, on a whole schema record. -/
def schemaOk (s : ToolSchema) : Bool :=
  requiredOk s.parameters

/-! Theorems.  Helper lemmas come first, then one theorem per claim (with
counterexamples and witnesses where the claim calls for them). -/

/-- Dict assignment stores the value under the key. -/
theorem lookup_dictInsert_self {β : Type} (k : String) (v : β) (l : List (String × β)) :
    (dictInsert k v l).lookup k = some v := by
  induction l with
  | nil => simp [dictInsert, List.lookup]
  | cons hd tl ih =>
    obtain ⟨k0, v0⟩ := hd
    by_cases h : k0 = k
    · simp [dictInsert, h, List.lookup]
    · have hb : (k == k0) = false := by simp [Ne.symm h]
      simp [dictInsert, h, List.lookup, hb, ih]

/-- Dict assignment on a present key keeps the key sequence. -/
theorem map_fst_dictInsert_of_mem {β : Type} (k : String) (v : β) (l : List (String × β))
    (h : k ∈ l.map Prod.fst) : (dictInsert k v l).map Prod.fst = l.map Prod.fst := by
  induction l with
  | nil => simp at h
  | cons hd tl ih =>
    obtain ⟨k0, v0⟩ := hd
    by_cases hk : k0 = k
    · simp [dictInsert, hk]
    · simp only [List.map_cons, List.mem_cons] at h
      rcases h with h | h
      · exact absurd h.symm hk
      · simp [dictInsert, hk, ih h]

/-- Dict assignment on a fresh key appends it to the key sequence. -/
theorem map_fst_dictInsert_of_not_mem {β : Type} (k : String) (v : β) (l : List (String × β))
    (h : k ∉ l.map Prod.fst) : (dictInsert k v l).map Prod.fst = l.map Prod.fst ++ [k] := by
  induction l with
  | nil => simp [dictInsert]
  | cons hd tl ih =>
    obtain ⟨k0, v0⟩ := hd
    simp only [List.map_cons, List.mem_cons] at h
    push_neg at h
    simp [dictInsert, Ne.symm h.1, ih h.2]

/-- Association-list lookup succeeds on every key of the list. -/
theorem lookup_isSome_of_mem_keys {β : Type} (k : String) (l : List (String × β))
    (h : k ∈ l.map Prod.fst) : (l.lookup k).isSome = true := by
  induction l with
  | nil => simp at h
  | cons hd tl ih =>
    obtain ⟨k0, v0⟩ := hd
    by_cases hk : k = k0
    · simp [List.lookup, hk]
    · have hb : (k == k0) = false := by simp [hk]
      simp only [List.map_cons, List.mem_cons] at h
      rcases h with h | h
      · exact absurd h hk
      · simp [List.lookup, hb, ih h]

/-- C1 (amended).  `execute_tool` is a total function into strings, and:
an unregistered name yields "Unknown tool: name"; an argument-binding
failure yields the invalid-arguments string; an implementation that raises
a non-`TypeError` exception internally yields the failed string; an
implementation that raises a `TypeError` internally is reported with the
invalid-arguments string as well (not the failed string, which is the one
correction to the claim); a successful result string is returned
unmodified. -/
theorem C1_execute_contract_amended {α : Type} (st : RegistryState α)
    (name : String) (args : α) :
    (st.functions.lookup name = none →
      execute_tool st name args = "Unknown tool: " ++ name) ∧
    ∀ f, st.functions.lookup name = some f →
      (∀ d, f args = .bindFailure d →
        execute_tool st name args = "Tool '" ++ name ++ "' received invalid arguments: " ++ d) ∧
      (∀ d, f args = .body (.error (.typeError d)) →
        execute_tool st name args = "Tool '" ++ name ++ "' received invalid arguments: " ++ d) ∧
      (∀ d, f args = .body (.error (.otherError d)) →
        execute_tool st name args = "Tool '" ++ name ++ "' failed: " ++ d) ∧
      (∀ r, f args = .body (.ok r) → execute_tool st name args = r) := by
  refine ⟨fun h => by simp [execute_tool, h], fun f hf => ?_⟩
  refine ⟨fun d hd => ?_, fun d hd => ?_, fun d hd => ?_, fun r hr => ?_⟩ <;>
    simp [execute_tool, hf, *, CallOutcome.toRaised]

/-- C1 witness: the success clause of the contract at a concrete registry. -/
theorem C1_execute_contract_witness :
    execute_tool
      ({ functions := [("echo_tool", fun _ => CallOutcome.body (Except.ok "done"))],
         schemas := [] } : RegistryState Unit) "echo_tool" () = "done" :=
  ((C1_execute_contract_amended
      ({ functions := [("echo_tool", fun _ => CallOutcome.body (Except.ok "done"))],
         schemas := [] } : RegistryState Unit) "echo_tool" ()).2
    (fun _ => CallOutcome.body (Except.ok "done")) rfl).2.2.2 "done" rfl

/-- C1 counterexample: a registered implementation that raises `TypeError`
internally (after binding succeeded) is reported with the
invalid-arguments string, not with the "Tool ... failed" string the claim
requires for every internal raise. -/
theorem C1_internal_typeError_counterexample :
    execute_tool
      ({ functions := [("boom_tool", fun _ => CallOutcome.body (Except.error (PyExc.typeError "boom")))],
         schemas := [] } : RegistryState Unit) "boom_tool" ()
      = "Tool 'boom_tool' received invalid arguments: boom" ∧
    execute_tool
      ({ functions := [("boom_tool", fun _ => CallOutcome.body (Except.error (PyExc.typeError "boom")))],
         schemas := [] } : RegistryState Unit) "boom_tool" ()
      ≠ "Tool 'boom_tool' failed: boom" := by
  constructor
  · rfl
  · decide

/-- C10.  When a registered implementation itself raises a `TypeError`
after argument binding succeeded, `execute_tool` reports it with the
"received invalid arguments" string, and that string is never equal to the
"failed" string for the same name and detail: the dispatcher cannot
distinguish an argument-binding failure from an internal `TypeError`. -/
theorem C10_internal_typeError_reported_as_invalid_args {α : Type} (st : RegistryState α)
    (name : String) (args : α) (f : α → CallOutcome) (d : String)
    (hf : st.functions.lookup name = some f)
    (hr : f args = .body (.error (.typeError d))) :
    execute_tool st name args = "Tool '" ++ name ++ "' received invalid arguments: " ++ d ∧
    execute_tool st name args ≠ "Tool '" ++ name ++ "' failed: " ++ d := by
  have he : execute_tool st name args
      = "Tool '" ++ name ++ "' received invalid arguments: " ++ d := by
    simp [execute_tool, hf, hr, CallOutcome.toRaised]
  refine ⟨he, ?_⟩
  rw [he]
  intro hcontra
  have hlen := congrArg String.length hcontra
  simp only [String.length_append] at hlen
  have l1 : ("' received invalid arguments: " : String).length = 30 := rfl
  have l2 : ("' failed: " : String).length = 10 := rfl
  omega

/-- C10 witness at a concrete registry and exception detail. -/
theorem C10_witness :
    execute_tool
      ({ functions := [("frob", fun _ => CallOutcome.body (Except.error (PyExc.typeError "bad kwarg")))],
         schemas := [] } : RegistryState Unit) "frob" ()
      = "Tool 'frob' received invalid arguments: bad kwarg" ∧
    execute_tool
      ({ functions := [("frob", fun _ => CallOutcome.body (Except.error (PyExc.typeError "bad kwarg")))],
         schemas := [] } : RegistryState Unit) "frob" ()
      ≠ "Tool 'frob' failed: bad kwarg" :=
  C10_internal_typeError_reported_as_invalid_args _ "frob" ()
    (fun _ => CallOutcome.body (Except.error (PyExc.typeError "bad kwarg"))) "bad kwarg" rfl rfl

/-- C2 (amended).  Registering the same name twice leaves a single entry
for it in the lookup dict, holding the later implementation — but the
schema list keeps both records in order, so the earlier registration does
leave a trace there (the one correction to the claim). -/
theorem C2_duplicate_registration_amended {α : Type} (st : RegistryState α)
    (name d1 d2 : String) (p1 p2 : ToolParameters) (f1 f2 : α → CallOutcome)
    (hfresh : name ∉ st.functions.map Prod.fst) :
    ((register_tool name d2 p2 f2 (register_tool name d1 p1 f1 st)).functions.lookup name
        = some f2) ∧
    ((register_tool name d2 p2 f2 (register_tool name d1 p1 f1 st)).functions.map Prod.fst
        = st.functions.map Prod.fst ++ [name]) ∧
    ((register_tool name d2 p2 f2 (register_tool name d1 p1 f1 st)).schemas
        = st.schemas ++ [⟨name, d1, p1⟩, ⟨name, d2, p2⟩]) := by
  refine ⟨lookup_dictInsert_self _ _ _, ?_, ?_⟩
  · have h1 : (register_tool name d1 p1 f1 st).functions.map Prod.fst
        = st.functions.map Prod.fst ++ [name] :=
      map_fst_dictInsert_of_not_mem _ _ _ hfresh
    have hmem : name ∈ (register_tool name d1 p1 f1 st).functions.map Prod.fst := by
      rw [h1]; simp
    calc (register_tool name d2 p2 f2 (register_tool name d1 p1 f1 st)).functions.map Prod.fst
        = (register_tool name d1 p1 f1 st).functions.map Prod.fst :=
          map_fst_dictInsert_of_mem _ _ _ hmem
      _ = st.functions.map Prod.fst ++ [name] := h1
  · simp [register_tool]

/-- C2 witness: double registration on an empty registry, concretely. -/
theorem C2_duplicate_registration_witness :
    (let st2 := register_tool "t" "second" ⟨[], []⟩ (fun _ => CallOutcome.body (Except.ok "two"))
        (register_tool "t" "first" ⟨[], []⟩ (fun _ => CallOutcome.body (Except.ok "one"))
          (emptyRegistry (α := Unit)));
     st2.functions.lookup "t" = some (fun _ => CallOutcome.body (Except.ok "two")) ∧
     st2.schemas = [⟨"t", "first", ⟨[], []⟩⟩, ⟨"t", "second", ⟨[], []⟩⟩]) := by
  have h := C2_duplicate_registration_amended (emptyRegistry (α := Unit)) "t" "first" "second"
    ⟨[], []⟩ ⟨[], []⟩ (fun _ => CallOutcome.body (Except.ok "one"))
    (fun _ => CallOutcome.body (Except.ok "two")) (by simp [emptyRegistry])
  exact ⟨h.1, h.2.2⟩

/-- C2 counterexample: after registering "t" twice, the schema list exposed
by `get_all_tools` still holds the earlier registration's record too, so a
trace of it remains (while dispatch does use the later implementation). -/
theorem C2_schema_trace_counterexample :
    (let st2 := register_tool "t" "second" ⟨[], []⟩ (fun _ => CallOutcome.body (Except.ok "two"))
        (register_tool "t" "first" ⟨[], []⟩ (fun _ => CallOutcome.body (Except.ok "one"))
          (emptyRegistry (α := Unit)));
     (get_all_tools st2).map ToolSchema.description = ["first", "second"] ∧
     (get_all_tools st2).length ≠ 1 ∧
     execute_tool st2 "t" () = "two") :=
  ⟨rfl, by decide, rfl⟩



/-- C3 (amended).  For every backend and timelimit, a `web_search` call
whose query is empty or whitespace-only returns the string "Please provide
a search query." (not "No search query provided", which is the message of
the inner `perform_search` guard that is never reached) and performs zero
backend calls. -/
theorem C3_empty_query_amended (be : SearchBackend) (query : String)
    (timelimit : Option String) (h : pyStrip query = "") :
    web_search be query timelimit = ("Please provide a search query.", 0) := by
  simp [web_search, h]

/-- C3 witness: a whitespace-only query against a live backend. -/
theorem C3_empty_query_witness :
    web_search ⟨true, fun _ _ _ _ => [⟨"t", "b", "h"⟩]⟩ "   " none
      = ("Please provide a search query.", 0) :=
  C3_empty_query_amended ⟨true, fun _ _ _ _ => [⟨"t", "b", "h"⟩]⟩ "   " none (by decide)

/-- C3 counterexample: `web_search` with an empty query returns "Please
provide a search query.", not the claimed "No search query provided."
(while indeed making no backend contact). -/
theorem C3_message_counterexample :
    (web_search ⟨true, fun _ _ _ _ => []⟩ "" none).1 = "Please provide a search query." ∧
    (web_search ⟨true, fun _ _ _ _ => []⟩ "" none).1 ≠ "No search query provided." ∧
    (web_search ⟨true, fun _ _ _ _ => []⟩ "" none).2 = 0 := by
  refine ⟨rfl, by decide, rfl⟩

/-- The two glob-collection loops agree once `find_files` is given the
`file_type="file"` filter, for every accumulator. -/
theorem find_and_open_collect_eq_file_filtered (entries : List FsEntry) :
    ∀ acc, find_and_open_collect entries acc = find_files_collect (some "file") entries acc := by
  induction entries with
  | nil => intro acc; rfl
  | cons e rest ih =>
    intro acc
    have hts : typeSkips (some "file") e = !e.isFile := by
      cases e with
      | mk p bf bd => simp [typeSkips]
    by_cases hex : is_excluded_path e.path
    · simp [find_and_open_collect, find_files_collect, hex, ih]
    · cases hf : e.isFile <;>
        simp [find_and_open_collect, find_files_collect, hex, hts, hf, ih]

/-- C4 (amended).  On every glob stream, the search inside
`find_and_open_file` enumerates exactly the paths `find_files` enumerates
when called with `file_type="file"` — not those of a plain
`find_files(pattern, directory)` call, which also returns directories
whose names match. -/
theorem C4_search_agrees_with_file_filter (entries : List FsEntry) :
    find_and_open_collect entries [] = find_files_collect (some "file") entries [] :=
  find_and_open_collect_eq_file_filtered entries []

/-- C4 counterexample: on a glob stream holding a matching directory and a
matching file, `find_files` (no `file_type`) lists both while
`find_and_open_file`'s search lists only the file, so the two searches do
not enumerate the same paths. -/
theorem C4_directory_match_counterexample :
    (find_files_collect none
        [⟨"/home/u/reports", false, true⟩, ⟨"/home/u/report.txt", true, false⟩] []
      = ["/home/u/reports", "/home/u/report.txt"]) ∧
    (find_and_open_collect
        [⟨"/home/u/reports", false, true⟩, ⟨"/home/u/report.txt", true, false⟩] []
      = ["/home/u/report.txt"]) ∧
    (find_files_collect none
        [⟨"/home/u/reports", false, true⟩, ⟨"/home/u/report.txt", true, false⟩] []
      ≠ find_and_open_collect
        [⟨"/home/u/reports", false, true⟩, ⟨"/home/u/report.txt", true, false⟩] []) := by
  refine ⟨by decide, by decide, by decide⟩

/-- C5 (amended).  When the search finds at least one match and `which` is
outside `1..n` and nonzero, `find_and_open_file` returns the out-of-range
message naming the match count and the requested index, and no open action
is performed.  (`which = 0` is the one out-of-range value excluded: Python's
`which or 1` turns it into the default 1 and the first match is opened.) -/
theorem C5_out_of_range_amended (xdg : Bool) (entries : List FsEntry) (pattern : String)
    (which : Int)
    (hne : find_and_open_collect entries [] ≠ [])
    (h0 : which ≠ 0)
    (hout : which < 1 ∨ ((find_and_open_collect entries []).length : Int) < which) :
    find_and_open_file xdg entries pattern which =
      ("Found " ++ toString (find_and_open_collect entries []).length ++
        " files, but you asked for #" ++ toString which ++ ". Please choose 1 to " ++
        toString (find_and_open_collect entries []).length ++ ".", none) := by
  have hempty : (find_and_open_collect entries []).isEmpty = false := by
    simp [List.isEmpty_iff, hne]
  simp [find_and_open_file, hempty, h0, hout]

/-- C5 witness: asking for match #5 out of 2. -/
theorem C5_out_of_range_witness :
    find_and_open_file true
      [⟨"/home/u/docs/report1.txt", true, false⟩, ⟨"/home/u/docs/report2.txt", true, false⟩]
      "report" 5
      = ("Found 2 files, but you asked for #5. Please choose 1 to 2.", none) := by
  have h := C5_out_of_range_amended true
    [⟨"/home/u/docs/report1.txt", true, false⟩, ⟨"/home/u/docs/report2.txt", true, false⟩]
    "report" 5 (by decide) (by decide) (by right; decide)
  simpa using h

/-- C5 counterexample: `which = 0` lies outside `1..n`, yet the call opens
the first match instead of returning the out-of-range message. -/
theorem C5_which_zero_counterexample :
    find_and_open_file true
      [⟨"/home/u/docs/report1.txt", true, false⟩, ⟨"/home/u/docs/report2.txt", true, false⟩]
      "report" 0
      = ("Opened report1.txt from docs folder.", some "/home/u/docs/report1.txt") ∧
    (find_and_open_file true
      [⟨"/home/u/docs/report1.txt", true, false⟩, ⟨"/home/u/docs/report2.txt", true, false⟩]
      "report" 0).2 ≠ none := by
  refine ⟨by decide, by decide⟩

/-- C6.  The effective line cap of `read_file` always lies in `1..200`
(with 50 the default, and falsy 0 also mapped to 50); a file over
`MAX_FILE_SIZE` (50KB) is rejected with the "File too large" message whose
text depends only on the size — none of the file's content appears; and in
the content case the returned text holds exactly the first
`effMaxLines` lines, never more than 200. -/
theorem C6_read_file_limits (home path : String) (fs : FileState) (max_lines : Int) :
    (1 ≤ effMaxLines max_lines ∧ effMaxLines max_lines ≤ 200) ∧
    effMaxLines 50 = 50 ∧ effMaxLines 0 = 50 ∧
    (fs.pathExists = true → fs.isDir = false → MAX_FILE_SIZE < fs.size →
      read_file home path fs max_lines =
        "File too large (" ++ format_size fs.size ++ "). Max allowed: " ++
          format_size MAX_FILE_SIZE ∧
      ∀ ls, read_file home path { fs with lines := ls } max_lines
        = read_file home path fs max_lines) ∧
    (fs.pathExists = true → fs.isDir = false → fs.size ≤ MAX_FILE_SIZE →
      (effMaxLines max_lines).toNat < fs.lines.length →
      read_file home path fs max_lines =
        "File: " ++ displayPath home path ++ " (showing first " ++
          toString (effMaxLines max_lines) ++ " of " ++ toString fs.lines.length ++
          " lines)\n\n" ++ String.join (fs.lines.take (effMaxLines max_lines).toNat) ∧
      (fs.lines.take (effMaxLines max_lines).toNat).length ≤ 200) := by
  have hub : effMaxLines max_lines ≤ 200 := max_le (by norm_num) (min_le_right _ 200)
  refine ⟨⟨le_max_left 1 _, hub⟩, by decide, by decide, ?_, ?_⟩
  · intro h1 h2 h3
    constructor
    · simp [read_file, h1, h2, h3]
    · intro ls
      simp [read_file, h1, h2, h3]
  · intro h1 h2 h3 h4
    have h3' : ¬ (MAX_FILE_SIZE < fs.size) := not_lt.mpr h3
    constructor
    · simp [read_file, h1, h2, h3', h4]
    · have : (effMaxLines max_lines).toNat ≤ 200 := by omega
      simp [List.length_take]
      omega

/-- C6 witness: a 60000-byte file is rejected; a 3-line file read with
`max_lines = 2` stays under the cap. -/
theorem C6_read_file_witness :
    (read_file "/home/alice" "/home/alice/big.log" ⟨true, false, 60000, ["alpha\n"]⟩ 50
      = "File too large (" ++ format_size 60000 ++ "). Max allowed: " ++
          format_size MAX_FILE_SIZE) ∧
    ((["a\n", "b\n", "c\n"].take (effMaxLines 2).toNat).length ≤ 200) :=
  ⟨((C6_read_file_limits "/home/alice" "/home/alice/big.log"
      ⟨true, false, 60000, ["alpha\n"]⟩ 50).2.2.2.1 rfl rfl (by decide)).1,
   ((C6_read_file_limits "/home/alice" "/home/alice/notes.txt"
      ⟨true, false, 100, ["a\n", "b\n", "c\n"]⟩ 2).2.2.2.2 rfl rfl (by decide) (by decide)).2⟩

/-- `str.replace` leaves a text unchanged when the pattern occurs nowhere
in it. -/
theorem replaceGo_no_match (pat rep : List Char) :
    ∀ (fuel : Nat) (s : List Char), ¬ pat <:+: s → replaceGo pat rep fuel s = s := by
  intro fuel
  induction fuel with
  | zero => intro s _; rfl
  | succ n ih =>
    intro s h
    match s with
    | [] => rfl
    | c :: rest =>
      have hp : pat.isPrefixOf (c :: rest) = false := by
        rw [Bool.eq_false_iff]
        intro hc
        exact h ((List.isPrefixOf_iff_prefix.mp hc).isInfix)
      have hrest : ¬ pat <:+: rest := fun hi => h (List.infix_cons hi)
      simp [replaceGo, hp, ih rest hrest]

/-- `str.replace` on a text that starts with the pattern (and has no other
occurrence) substitutes that one occurrence. -/
theorem replaceGo_head_match (pat rep t : List Char) (hpat : pat ≠ [])
    (hnot : ¬ pat <:+: t) (fuel : Nat) :
    replaceGo pat rep (fuel + 1) (pat ++ t) = rep ++ t := by
  obtain ⟨c, cs, hc⟩ := List.exists_cons_of_ne_nil hpat
  subst hc
  have hp : (c :: cs).isPrefixOf (c :: (cs ++ t)) = true :=
    List.isPrefixOf_iff_prefix.mpr (List.prefix_append _ _)
  show replaceGo (c :: cs) rep (fuel + 1) (c :: (cs ++ t)) = rep ++ t
  simp only [replaceGo, hp, if_true, List.length_cons, Nat.add_sub_cancel]
  rw [List.drop_left, replaceGo_no_match _ _ _ _ hnot]

/-- `pyReplace` on `pat ++ t` with no occurrence of `pat` inside `t`
yields `rep ++ t`. -/
theorem pyReplace_head_match (pat rep : String) (t : List Char)
    (hpat : pat.data ≠ []) (hnot : ¬ pat.data <:+: t) :
    pyReplace ⟨pat.data ++ t⟩ pat rep = ⟨rep.data ++ t⟩ := by
  have hgo : replaceGo pat.data rep.data (pat.data ++ t).length (pat.data ++ t)
      = rep.data ++ t := by
    obtain ⟨c, cs, hc⟩ := List.exists_cons_of_ne_nil hpat
    rw [hc] at hnot ⊢
    have hl : ((c :: cs) ++ t).length = (cs.length + t.length) + 1 := by
      rw [List.length_append, List.length_cons]
      omega
    rw [hl]
    exact replaceGo_head_match _ _ _ (by simp) hnot (cs.length + t.length)
  exact congrArg String.mk hgo

/-- `pyReplace` is the identity when the pattern is not an infix. -/
theorem pyReplace_no_match (s pat rep : String) (hnot : ¬ pat.data <:+: s.data) :
    pyReplace s pat rep = s := by
  unfold pyReplace
  rw [replaceGo_no_match _ _ _ _ hnot]

/-- `os.path.expanduser` on a `~/`-prefixed path substitutes the home
directory. -/
theorem py_expanduser_tilde_slash (home : String) (r : List Char) :
    py_expanduser home ⟨'~' :: '/' :: r⟩ = ⟨home.data ++ '/' :: r⟩ := by
  have h1 : (⟨'~' :: '/' :: r⟩ : String) ≠ "~" := by
    intro h
    have := congrArg String.data h
    simp at this
  have h2 : py_startswith ⟨'~' :: '/' :: r⟩ "~/" = true := by
    simp [py_startswith, List.isPrefixOf]
  unfold py_expanduser
  rw [if_neg h1]
  simp [h2]

/-- `os.path.expanduser` leaves a path alone when it does not start
with `~`. -/
theorem py_expanduser_of_not_tilde (home p : String)
    (h : py_startswith p "~" = false) : py_expanduser home p = p := by
  have hp1 : p ≠ "~" := by
    intro he
    rw [he] at h
    exact absurd h (by decide)
  have hp2 : py_startswith p "~/" = false := by
    rw [Bool.eq_false_iff]
    intro htrue
    have hpre : ("~" : String).data <+: p.data :=
      List.IsPrefix.trans ⟨['/'], rfl⟩ (List.isPrefixOf_iff_prefix.mp htrue)
    rw [Bool.eq_false_iff] at h
    exact h (List.isPrefixOf_iff_prefix.mpr hpre)
  unfold py_expanduser
  rw [if_neg hp1]
  simp [hp2]

/-- The three placeholder rewrites leave a path unchanged when no
placeholder occurs in it. -/
theorem replace_placeholders_no_match (p : String)
    (h1 : ¬ ("/home/yourname/" : String).data <:+: p.data)
    (h2 : ¬ ("/home/username/" : String).data <:+: p.data)
    (h3 : ¬ ("/home/user/" : String).data <:+: p.data) :
    pyReplace (pyReplace (pyReplace p "/home/yourname/" "~/")
      "/home/username/" "~/") "/home/user/" "~/" = p := by
  rw [pyReplace_no_match _ _ _ h1, pyReplace_no_match _ _ _ h2,
    pyReplace_no_match _ _ _ h3]

/-- C8 (amended).  For paths free of further placeholder occurrences: each
hallucinated placeholder home prefix (`/home/yourname/`, `/home/username/`,
`/home/user/`) and the `~/` shorthand is expanded into the real home
directory by `_expand_path` (file tools) — and, via the same rewrites, by
`open_file` (app tools); an empty path becomes the home directory.  But a
relative path is resolved against the home directory only by `open_file`:
`_expand_path` returns it unchanged (so the file tools resolve it against
the process working directory), which is the one correction to the
claim. -/
theorem C8_path_normalization_amended (home : String) :
    (∀ r : List Char,
      ¬ ("/home/yourname/" : String).data <:+: '~' :: '/' :: r →
      ¬ ("/home/username/" : String).data <:+: '~' :: '/' :: r →
      ¬ ("/home/user/" : String).data <:+: '~' :: '/' :: r →
      expand_path home ⟨("/home/yourname/" : String).data ++ r⟩ = ⟨home.data ++ '/' :: r⟩ ∧
      expand_path home ⟨'~' :: '/' :: r⟩ = ⟨home.data ++ '/' :: r⟩) ∧
    (∀ r : List Char,
      ¬ ("/home/yourname/" : String).data <:+: ("/home/username/" : String).data ++ r →
      ¬ ("/home/username/" : String).data <:+: r →
      ¬ ("/home/user/" : String).data <:+: '~' :: '/' :: r →
      expand_path home ⟨("/home/username/" : String).data ++ r⟩ = ⟨home.data ++ '/' :: r⟩) ∧
    (∀ r : List Char,
      ¬ ("/home/yourname/" : String).data <:+: ("/home/user/" : String).data ++ r →
      ¬ ("/home/username/" : String).data <:+: ("/home/user/" : String).data ++ r →
      ¬ ("/home/user/" : String).data <:+: r →
      expand_path home ⟨("/home/user/" : String).data ++ r⟩ = ⟨home.data ++ '/' :: r⟩) ∧
    expand_path home "" = home ∧
    (∀ p : String, p ≠ "" →
      ¬ ("/home/yourname/" : String).data <:+: p.data →
      ¬ ("/home/username/" : String).data <:+: p.data →
      ¬ ("/home/user/" : String).data <:+: p.data →
      py_startswith p "~" = false →
      expand_path home p = p) ∧
    (∀ p : String, pyStrip p = p →
      ¬ ("/home/yourname/" : String).data <:+: p.data →
      ¬ ("/home/username/" : String).data <:+: p.data →
      ¬ ("/home/user/" : String).data <:+: p.data →
      py_startswith p "~" = false →
      py_startswith p "/" = false →
      home ≠ "" → home.data.getLast? ≠ some '/' →
      open_file_target home p = home ++ "/" ++ p) := by
  refine ⟨?_, ?_, ?_, by simp [expand_path], ?_, ?_⟩
  · intro r h1 h2 h3
    have hne : (⟨("/home/yourname/" : String).data ++ r⟩ : String) ≠ "" := by
      intro h
      have hd := congrArg String.data h
      rcases List.append_eq_nil.mp hd with ⟨hpat, -⟩
      exact absurd hpat (by decide)
    have h1r : ¬ ("/home/yourname/" : String).data <:+: r := fun hi =>
      h1 (List.infix_cons (List.infix_cons hi))
    constructor
    · unfold expand_path
      rw [if_neg hne]
      rw [pyReplace_head_match "/home/yourname/" "~/" r (by decide) h1r]
      rw [show (("~/" : String).data ++ r) = '~' :: '/' :: r from rfl]
      rw [pyReplace_no_match _ _ _ h2, pyReplace_no_match _ _ _ h3]
      exact py_expanduser_tilde_slash home r
    · have hne2 : (⟨'~' :: '/' :: r⟩ : String) ≠ "" := by
        intro h
        have hd := congrArg String.data h
        simp at hd
      unfold expand_path
      rw [if_neg hne2]
      rw [pyReplace_no_match _ _ _ h1, pyReplace_no_match _ _ _ h2,
        pyReplace_no_match _ _ _ h3]
      exact py_expanduser_tilde_slash home r
  · intro r g1 g2 g3
    have hne : (⟨("/home/username/" : String).data ++ r⟩ : String) ≠ "" := by
      intro h
      have hd := congrArg String.data h
      rcases List.append_eq_nil.mp hd with ⟨hpat, -⟩
      exact absurd hpat (by decide)
    unfold expand_path
    rw [if_neg hne]
    rw [pyReplace_no_match _ _ _ g1]
    rw [pyReplace_head_match "/home/username/" "~/" r (by decide) g2]
    rw [show (("~/" : String).data ++ r) = '~' :: '/' :: r from rfl]
    rw [pyReplace_no_match _ _ _ g3]
    exact py_expanduser_tilde_slash home r
  · intro r g1 g2 g3
    have hne : (⟨("/home/user/" : String).data ++ r⟩ : String) ≠ "" := by
      intro h
      have hd := congrArg String.data h
      rcases List.append_eq_nil.mp hd with ⟨hpat, -⟩
      exact absurd hpat (by decide)
    unfold expand_path
    rw [if_neg hne]
    rw [pyReplace_no_match _ _ _ g1, pyReplace_no_match _ _ _ g2]
    rw [pyReplace_head_match "/home/user/" "~/" r (by decide) g3]
    rw [show (("~/" : String).data ++ r) = '~' :: '/' :: r from rfl]
    exact py_expanduser_tilde_slash home r
  · intro p hne h1 h2 h3 ht
    unfold expand_path
    rw [if_neg hne, replace_placeholders_no_match p h1 h2 h3]
    exact py_expanduser_of_not_tilde home p ht
  · intro p hstrip h1 h2 h3 ht hslash hh1 hh2
    unfold open_file_target
    rw [hstrip, replace_placeholders_no_match p h1 h2 h3,
      py_expanduser_of_not_tilde home p ht]
    simp only [hslash, Bool.false_eq_true, if_false]
    unfold py_join
    simp only [hslash, Bool.false_eq_true, if_false]
    rw [if_neg]
    push_neg
    exact ⟨hh1, hh2⟩

/-- C8 witness: the normalization pipeline at concrete paths. -/
theorem C8_path_normalization_witness :
    expand_path "/home/alice" "/home/yourname/docs/a.txt" = "/home/alice/docs/a.txt" ∧
    expand_path "/home/alice" "~/docs/a.txt" = "/home/alice/docs/a.txt" ∧
    expand_path "/home/alice" "/home/username/docs/a.txt" = "/home/alice/docs/a.txt" ∧
    expand_path "/home/alice" "/home/user/docs/a.txt" = "/home/alice/docs/a.txt" ∧
    expand_path "/home/alice" "" = "/home/alice" ∧
    expand_path "/home/alice" "notes.txt" = "notes.txt" ∧
    open_file_target "/home/alice" "notes.txt" = "/home/alice/notes.txt" := by
  have hmain := C8_path_normalization_amended "/home/alice"
  refine ⟨?_, ?_, ?_, ?_, hmain.2.2.2.1, ?_, ?_⟩
  · have h := (hmain.1 ("docs/a.txt" : String).data (by decide) (by decide) (by decide)).1
    have e1 : ("/home/yourname/docs/a.txt" : String)
        = ⟨("/home/yourname/" : String).data ++ ("docs/a.txt" : String).data⟩ := by decide
    have e2 : ("/home/alice/docs/a.txt" : String)
        = ⟨("/home/alice" : String).data ++ '/' :: ("docs/a.txt" : String).data⟩ := by decide
    rw [e1, e2]
    exact h
  · have h := (hmain.1 ("docs/a.txt" : String).data (by decide) (by decide) (by decide)).2
    have e1 : ("~/docs/a.txt" : String) = ⟨'~' :: '/' :: ("docs/a.txt" : String).data⟩ := by decide
    have e2 : ("/home/alice/docs/a.txt" : String)
        = ⟨("/home/alice" : String).data ++ '/' :: ("docs/a.txt" : String).data⟩ := by decide
    rw [e1, e2]
    exact h
  · have h := hmain.2.1 ("docs/a.txt" : String).data (by decide) (by decide) (by decide)
    have e1 : ("/home/username/docs/a.txt" : String)
        = ⟨("/home/username/" : String).data ++ ("docs/a.txt" : String).data⟩ := by decide
    have e2 : ("/home/alice/docs/a.txt" : String)
        = ⟨("/home/alice" : String).data ++ '/' :: ("docs/a.txt" : String).data⟩ := by decide
    rw [e1, e2]
    exact h
  · have h := hmain.2.2.1 ("docs/a.txt" : String).data (by decide) (by decide) (by decide)
    have e1 : ("/home/user/docs/a.txt" : String)
        = ⟨("/home/user/" : String).data ++ ("docs/a.txt" : String).data⟩ := by decide
    have e2 : ("/home/alice/docs/a.txt" : String)
        = ⟨("/home/alice" : String).data ++ '/' :: ("docs/a.txt" : String).data⟩ := by decide
    rw [e1, e2]
    exact h
  · exact hmain.2.2.2.2.1 "notes.txt" (by decide) (by decide) (by decide) (by decide) (by decide)
  · have h := hmain.2.2.2.2.2 "notes.txt" (by decide) (by decide) (by decide) (by decide)
      (by decide) (by decide) (by decide) (by decide)
    have e : ("/home/alice" : String) ++ "/" ++ "notes.txt" = "/home/alice/notes.txt" := by decide
    rw [← e]
    exact h

/-- C8 counterexample: `_expand_path` hands a relative path back
unchanged — it is not resolved against the home directory, and the result
does not even start with the home directory. -/
theorem C8_relative_path_counterexample :
    expand_path "/home/alice" "notes.txt" = "notes.txt" ∧
    ("notes.txt" : String) ≠ "/home/alice/notes.txt" ∧
    py_startswith (expand_path "/home/alice" "notes.txt") "/home/alice" = false := by
  refine ⟨by decide, by decide, by decide⟩

/-- C7 evaluation at the failing input.  `EXCLUDED_DIRS` itself lists
`.local/share/Trash`, yet `_is_excluded_path` compares each entry against
single path components, so a path inside the trash directory is not
excluded and is returned by the search loop — while single-component
entries such as `.git` and `node_modules` are excluded correctly (the
3-matches-plus-1-excluded example of the claim does yield exactly 3). -/
theorem C7_trash_exclusion_failing_input :
    EXCLUDED_DIRS.contains ".local/share/Trash" = true ∧
    is_excluded_path "/home/alice/.local/share/Trash/old.pdf" = false ∧
    is_excluded_path "/home/alice/.git/old.pdf" = true ∧
    find_files_collect none [⟨"/home/alice/.local/share/Trash/old.pdf", true, false⟩] []
      = ["/home/alice/.local/share/Trash/old.pdf"] ∧
    find_files_collect none
      [⟨"/d/a.pdf", true, false⟩, ⟨"/d/node_modules/x.pdf", true, false⟩,
       ⟨"/d/b.pdf", true, false⟩, ⟨"/d/c.pdf", true, false⟩] []
      = ["/d/a.pdf", "/d/b.pdf", "/d/c.pdf"] := by
  refine ⟨by decide, by decide, by decide, by decide, by decide⟩

/-- Dict assignment makes the key a member of the key sequence. -/
theorem mem_keys_dictInsert_self {β : Type} (k : String) (v : β) (l : List (String × β)) :
    k ∈ (dictInsert k v l).map Prod.fst := by
  induction l with
  | nil => simp [dictInsert]
  | cons hd tl ih =>
    obtain ⟨k0, v0⟩ := hd
    by_cases h : k0 = k
    · simp [dictInsert, h]
    · simp only [dictInsert, h, if_false, List.map_cons, List.mem_cons]
      right
      exact ih

/-- `register_tool` preserves "every schema's `required` list only names
`properties` keys" whenever the newly registered schema satisfies it. -/
theorem all_schemaOk_register {α : Type} (st : RegistryState α) (n d : String)
    (p : ToolParameters) (f : α → CallOutcome)
    (hst : st.schemas.all schemaOk = true) (hp : requiredOk p = true) :
    ((register_tool n d p f st).schemas.all schemaOk) = true := by
  simp [register_tool, List.all_append, hst, schemaOk, hp]

/-- C9.  After the startup registration pass (whatever the tool
implementations are), looking up any name in `get_tool_names` succeeds,
and every registered schema's `required` list is a subset of its
`properties` keys. -/
theorem C9_startup_registry_wellformed {α : Type} (impl : String → α → CallOutcome) :
    (∀ name ∈ get_tool_names (startupRegistry impl),
      ((startupRegistry impl).functions.lookup name).isSome = true) ∧
    (∀ s ∈ get_all_tools (startupRegistry impl),
      ∀ r ∈ s.parameters.required, r ∈ s.parameters.properties.map Prod.fst) := by
  constructor
  · intro name h
    exact lookup_isSome_of_mem_keys name _ h
  · have hall : ((startupRegistry impl).schemas.all schemaOk) = true := by
      unfold startupRegistry
      repeat refine all_schemaOk_register _ _ _ _ _ ?_ (by decide)
      rfl
    intro s hs r hr
    have h1 := (List.all_eq_true.mp hall) s hs
    unfold schemaOk requiredOk at h1
    have h2 := (List.all_eq_true.mp h1) r hr
    simpa using h2

/-- C9 witness: lookup of `web_search` succeeds and its required field
`query` is among its property keys. -/
theorem C9_startup_registry_witness :
    ((startupRegistry (fun _ (_ : Unit) => CallOutcome.body (Except.ok ""))).functions.lookup
        "web_search").isSome = true ∧
    "query" ∈ ({ name := "web_search",
                 description := "Search the internet for current information like weather, news, sports scores, or stocks.",
                 parameters :=
                   ⟨[("query", prop "string" "Search query"),
                     ("timelimit", propEnum "string" ["d", "w", "m", "y"]
                       "Time limit: 'd' (day), 'w' (week), 'm' (month), 'y' (year). Use 'd' or 'w' for recent news.")],
                     ["query"]⟩ } : ToolSchema).parameters.properties.map Prod.fst := by
  have h := C9_startup_registry_wellformed (fun _ (_ : Unit) => CallOutcome.body (Except.ok ""))
  refine ⟨h.1 "web_search" ?_, h.2 _ ?_ "query" (by decide)⟩
  · exact mem_keys_dictInsert_self "web_search" _ _
  · exact List.mem_append_right _ (List.mem_singleton.mpr rfl)

end LocalAssistant
